import Mathlib

/-!
Verification of the CI fuzzing orchestration module (`infra/cifuzz/cifuzz.py`):
time-budget division and the run loop of `run_fuzzers`, the corpus retrieval
loop of `download_latest_corpus`, and the marker-based crash-report extraction
of `parse_fuzzer_output`.

Strings are modelled as `List Char`; Python's `str.find` and slicing are
embedded with their exact semantics (including negative indices and `-1` for
"not found").  Filesystem side effects are modelled explicitly: the summary
file is a `List Char` threaded through `parse_fuzzer_output`, and
`download_latest_corpus` returns the ordered list of filesystem/network events
it performs.
-/

/-- Python `s.find(pat)`: the least index at which `pat` occurs in `s`,
or `-1` when `pat` does not occur. -/
def pyFind (s pat : List Char) : Int :=
  match (List.range (s.length + 1)).find? (fun i => pat.isPrefixOf (s.drop i)) with
  | some i => (i : Int)
  | none => -1

/-- Normalisation of one Python slice index: negative indices count from the
end (clamped at 0), non-negative indices are clamped at the length. -/
def sliceIndex (len : Nat) (i : Int) : Nat :=
  if i < 0 then ((len : Int) + i).toNat else min i.toNat len

/-- Python `s[a:b]` for integer bounds `a`, `b`. -/
def pySlice (s : List Char) (a b : Int) : List Char :=
  (s.take (sliceIndex s.length b)).drop (sliceIndex s.length a)

/-- The ordered start-of-stack-trace marker list `STACKTRACE_TOOL_MARKERS`. -/
def STACKTRACE_TOOL_MARKERS : List (List Char) :=
  [("AddressSanitizer".toList),
   ("ASAN:".toList),
   ("CFI: Most likely a control flow integrity violation;".toList),
   ("ERROR: libFuzzer".toList),
   ("KASAN:".toList),
   ("LeakSanitizer".toList),
   ("MemorySanitizer".toList),
   ("ThreadSanitizer".toList),
   ("UndefinedBehaviorSanitizer".toList),
   ("UndefinedSanitizer".toList)]

/-- The ordered end-of-stack-trace marker list `STACKTRACE_END_MARKERS`. -/
def STACKTRACE_END_MARKERS : List (List Char) :=
  [("ABORTING".toList),
   ("END MEMORY TOOL REPORT".toList),
   ("End of process memory map.".toList),
   ("END_KASAN_OUTPUT".toList),
   ("SUMMARY:".toList),
   ("Shadow byte and word".toList),
   ("[end of stack trace]".toList),
   ("\nExiting".toList),
   ("minidump has been written".toList)]

/-- The first `for marker in STACKTRACE_TOOL_MARKERS` loop of
`parse_fuzzer_output`: the body runs `marker_index = fuzzer_output.find(marker)`
and breaks with `begin_summary = marker_index` when `if marker_index:` holds,
i.e. when the find result is any nonzero integer (`-1` included).  `none`
models the Python variable `begin_summary` being left unassigned. -/
def begin_summary_loop (fuzzer_output : List Char) : List (List Char) → Option Int
  | [] => none
  | marker :: rest =>
    let marker_index := pyFind fuzzer_output marker
    if marker_index ≠ 0 then some marker_index
    else begin_summary_loop fuzzer_output rest

/-- Value of `begin_summary` after the first marker loop. -/
def begin_summary (fuzzer_output : List Char) : Option Int :=
  begin_summary_loop fuzzer_output STACKTRACE_TOOL_MARKERS

/-- The second `for marker in STACKTRACE_END_MARKERS` loop: `end_summary`
starts at `-1` and the body breaks with `marker_index + len(marker)` when
`if marker_index:` holds (find result nonzero, `-1` included). -/
def end_summary_loop (fuzzer_output : List Char) : List (List Char) → Int
  | [] => -1
  | marker :: rest =>
    let marker_index := pyFind fuzzer_output marker
    if marker_index ≠ 0 then marker_index + (marker.length : Int)
    else end_summary_loop fuzzer_output rest

/-- Value of `end_summary` after the second marker loop. -/
def end_summary (fuzzer_output : List Char) : Int :=
  end_summary_loop fuzzer_output STACKTRACE_END_MARKERS

/-- The slice `fuzzer_output[begin_summary:end_summary]` that
`parse_fuzzer_output` appends to the bug-summary file (empty when
`begin_summary` is unassigned, though that never happens). -/
def summary_str (fuzzer_output : List Char) : List Char :=
  match begin_summary fuzzer_output with
  | none => []
  | some b => pySlice fuzzer_output b (end_summary fuzzer_output)

/-- `parse_fuzzer_output`, with the content of `bug_summary.txt` threaded
through as state.  `none` models the fault Python would raise if
`begin_summary` were referenced unassigned; otherwise `end_summary` is an
integer, the `is None` guard is false, an empty slice is a no-op, and a
non-empty slice is appended (mode `'a'`) to the file. -/
def parse_fuzzer_output (fuzzer_output : List Char) (bug_summary_file : List Char) :
    Option (List Char) :=
  match begin_summary fuzzer_output with
  | none => none
  | some b =>
    let e := end_summary fuzzer_output
    let s := pySlice fuzzer_output b e
    if s = [] then some bug_summary_file
    else some (bug_summary_file ++ s)

/-- Outcome of `target.fuzz()`: `test_case` and `stack_trace`, each `None` or
a string (possibly empty). -/
structure FuzzOutcome where
  test_case : Option (List Char)
  stack_trace : Option (List Char)

/-- Python truthiness of an optional string: `None` and `''` are falsy. -/
def truthy : Option (List Char) → Bool
  | none => false
  | some s => !s.isEmpty

/-- The crash branch of the `run_fuzzers` loop: taken exactly when
`not test_case or not stack_trace` is false, i.e. both are truthy. -/
def crash_detected (o : FuzzOutcome) : Bool :=
  truthy o.test_case && truthy o.stack_trace

/-- The `for fuzzer_path in fuzzer_paths` loop of `run_fuzzers`, applied to the
outcomes of the targets in discovery order: returns `(True, True)` from inside
the loop on the first crash, `(True, False)` after exhausting the list. -/
def run_fuzzers_loop : List FuzzOutcome → Bool × Bool
  | [] => (true, false)
  | o :: rest => if crash_detected o then (true, true) else run_fuzzers_loop rest

/-- The targets the `run_fuzzers` loop actually executes, in order: every
target up to and including the first crashing one. -/
def executed_targets : List FuzzOutcome → List FuzzOutcome
  | [] => []
  | o :: rest => if crash_detected o then [o] else o :: executed_targets rest

/-- `fuzz_seconds_per_target = fuzz_seconds // len(fuzzer_paths)`. -/
def fuzz_seconds_per_target (fuzz_seconds : Nat) (fuzzer_paths : List (List Char)) : Nat :=
  fuzz_seconds / fuzzer_paths.length

/-- The seconds handed to each discovered target: every `FuzzTarget` is
constructed with the same `fuzz_seconds_per_target`. -/
def target_allotments (fuzz_seconds : Nat) (fuzzer_paths : List (List Char)) : List Nat :=
  fuzzer_paths.map (fun _ => fuzz_seconds_per_target fuzz_seconds fuzzer_paths)

/-- Filesystem and network events performed by `download_latest_corpus`. -/
inductive FsEvent where
  | mkdirs (path : List Char)
  | attempt (date : Int)
  | extractArchive (path : List Char) (date : Int)
deriving DecidableEq

/-- `range(90, 100)`: the day offsets probed before the current date. -/
def corpus_day_window : List Nat := List.range' 90 10

/-- The `for day_diff in range(90, 100)` loop of `download_latest_corpus`:
each iteration computes `date_to_check = current_date - day_diff` and attempts
`urlopen`; on success it extracts the archive into `corpus_dir` and returns
`corpus_dir` from inside the loop, on `HTTPError` it returns `None`.  Dates
are modelled as integers and the network by the oracle `download_ok`.
The second component is the ordered event trace. -/
def download_corpus_loop (download_ok : Int → Bool) (current_date : Int)
    (corpus_dir : List Char) : List Nat → Option (List Char) × List FsEvent
  | [] => (none, [])
  | day_diff :: _rest =>
    let date_to_check := current_date - (day_diff : Int)
    if download_ok date_to_check then
      (some corpus_dir,
       [FsEvent.attempt date_to_check, FsEvent.extractArchive corpus_dir date_to_check])
    else
      (none, [FsEvent.attempt date_to_check])

/-- `download_latest_corpus`: validates the project and the out directory,
creates `corpus_dir = os.path.join(out_dir, 'corpus', target)` with
`os.makedirs`, then runs the download loop over `corpus_day_window`.  Returns
the result of the Python function together with the ordered event trace. -/
def download_latest_corpus (project_exists out_dir_exists : Bool)
    (download_ok : Int → Bool) (current_date : Int) (out_dir target : List Char) :
    Option (List Char) × List FsEvent :=
  if !project_exists then (none, [])
  else if !out_dir_exists then (none, [])
  else
    let corpus_dir := out_dir ++ ("/corpus/".toList) ++ target
    let r := download_corpus_loop download_ok current_date corpus_dir corpus_day_window
    (r.1, FsEvent.mkdirs corpus_dir :: r.2)

/-! ## Helper lemmas -/

/-- `find` returns `0` exactly when the pattern occurs at the very start. -/
lemma pyFind_zero_iff (s pat : List Char) :
    pyFind s pat = 0 ↔ pat.isPrefixOf s = true := by
  constructor
  · intro h
    rcases hf : (List.range (s.length + 1)).find? (fun i => pat.isPrefixOf (s.drop i))
      with _ | i
    · rw [pyFind, hf] at h
      exact absurd h (by decide)
    · rw [pyFind, hf] at h
      have hi : i = 0 := by simpa using h
      subst hi
      simpa using List.find?_some hf
  · intro hp
    rw [pyFind, List.range_succ_eq_map,
      List.find?_cons_of_pos _ (by simpa using hp)]
    rfl

/-- The first two start markers cannot both sit at index `0` of the output. -/
lemma addr_asan_not_both (s : List Char)
    (h1 : ("AddressSanitizer".toList).isPrefixOf s = true)
    (h2 : ("ASAN:".toList).isPrefixOf s = true) : False := by
  rw [ List.isPrefixOf_iff_prefix] at h1 h2
  rcases List.prefix_or_prefix_of_prefix h1 h2 with h | h <;> revert h <;> decide

/-- The start-marker loop always breaks within its first two iterations:
`fuzzer_output.find` is `0` for at most one of the first two markers, and any
nonzero result (`-1` included) triggers the `break`. -/
lemma begin_summary_eq_two (s : List Char) :
    begin_summary s =
      if pyFind s ("AddressSanitizer".toList) ≠ 0
      then some (pyFind s ("AddressSanitizer".toList))
      else some (pyFind s ("ASAN:".toList)) := by
  by_cases h1 : pyFind s ("AddressSanitizer".toList) = 0
  · have h2 : pyFind s ("ASAN:".toList) ≠ 0 := by
      intro h2
      exact addr_asan_not_both s ((pyFind_zero_iff s _).mp h1)
        ((pyFind_zero_iff s _).mp h2)
    simp only [begin_summary, STACKTRACE_TOOL_MARKERS, begin_summary_loop]
    simp at h1 h2
    simp [h1, h2]
  · simp only [begin_summary, STACKTRACE_TOOL_MARKERS, begin_summary_loop]
    simp at h1
    simp [h1]

/-- `begin_summary` is always assigned. -/
lemma begin_summary_isSome (s : List Char) : ∃ b, begin_summary s = some b := by
  rw [begin_summary_eq_two]
  split
  · exact ⟨_, rfl⟩
  · exact ⟨_, rfl⟩

/-- `parse_fuzzer_output` never reaches its fault branch. -/
lemma parse_fuzzer_output_isSome (s f : List Char) :
    (parse_fuzzer_output s f).isSome = true := by
  obtain ⟨b, hb⟩ := begin_summary_isSome s
  unfold parse_fuzzer_output
  rw [hb]
  dsimp only
  split <;> rfl

/-- When the extracted slice is non-empty, `parse_fuzzer_output` appends it to
the current file content. -/
lemma parse_fuzzer_output_append (s f : List Char) (h : summary_str s ≠ []) :
    parse_fuzzer_output s f = some (f ++ summary_str s) := by
  obtain ⟨b, hb⟩ := begin_summary_isSome s
  unfold summary_str at h ⊢
  rw [hb] at h ⊢
  dsimp only at h ⊢
  unfold parse_fuzzer_output
  rw [hb]
  dsimp only
  rw [if_neg h]

/-- Sum of a constant list. -/
lemma sum_map_const_nat {α : Type} (l : List α) (c : Nat) :
    (l.map (fun _ => c)).sum = l.length * c := by
  induction l with
  | nil => simp
  | cons a t ih => simp [ih, Nat.succ_mul, Nat.add_comm]

/-! ## Claim theorems -/

/-- C9: for every input string, extraction is total and never faults: the
start-boundary variable is always assigned before use — the start-marker loop
breaks by the second list entry at the latest, since `find` returns `-1`
(nonzero, hence truthy) for an absent marker and two distinct markers cannot
both occur at index 0 — so the `is None` guards are never satisfied and the
early-return branch is unreachable. -/
theorem parse_fuzzer_output_never_faults (fuzzer_output file : List Char) :
    begin_summary fuzzer_output =
      (if pyFind fuzzer_output ("AddressSanitizer".toList) ≠ 0
       then some (pyFind fuzzer_output ("AddressSanitizer".toList))
       else some (pyFind fuzzer_output ("ASAN:".toList))) ∧
    (begin_summary fuzzer_output).isSome = true ∧
    (parse_fuzzer_output fuzzer_output file).isSome = true := by
  refine ⟨begin_summary_eq_two fuzzer_output, ?_, parse_fuzzer_output_isSome fuzzer_output file⟩
  obtain ⟨b, hb⟩ := begin_summary_isSome fuzzer_output
  rw [hb]
  rfl

/-- C2 counter-evidence: on the raw output `"ERROR: libFuzzer"`, the first
start marker found in list order is `"ERROR: libFuzzer"` itself at index 0
(none of the three earlier list entries occurs), yet the code sets
`begin_summary = -1`: `find` on the absent first marker returns `-1`, which is
truthy, so the loop breaks at the first list entry rather than at the first
entry whose substring is found. -/
theorem begin_summary_not_first_found_marker :
    ("ERROR: libFuzzer".toList) ∈ STACKTRACE_TOOL_MARKERS ∧
    pyFind ("ERROR: libFuzzer".toList) ("ERROR: libFuzzer".toList) = 0 ∧
    (∀ m ∈ [("AddressSanitizer".toList), ("ASAN:".toList),
            ("CFI: Most likely a control flow integrity violation;".toList)],
        pyFind ("ERROR: libFuzzer".toList) m = -1) ∧
    begin_summary ("ERROR: libFuzzer".toList) = some (-1) := by
  refine ⟨by decide, by decide, by decide, by decide⟩

/-- C3 counter-evidence: on an input that contains `"ERROR: libFuzzer"` at
index 0 followed by `"SUMMARY:"` at index 19, extraction writes nothing at
all (the file stays empty): `begin_summary` becomes `-1` and `end_summary`
becomes `7 = -1 + len("ABORTING")`, so the slice `[-1:7]` is empty. -/
theorem parse_fuzzer_output_misses_libfuzzer_report :
    pyFind ("ERROR: libFuzzer x SUMMARY: y".toList) ("ERROR: libFuzzer".toList) = 0 ∧
    pyFind ("ERROR: libFuzzer x SUMMARY: y".toList) ("SUMMARY:".toList) = 19 ∧
    parse_fuzzer_output ("ERROR: libFuzzer x SUMMARY: y".toList) [] = some [] := by
  refine ⟨by decide, by decide, by decide⟩

/-- C4 counter-evidence: on `"xx SUMMARY: yy"`, the only end marker present is
`"SUMMARY:"` at index 3, so the end boundary should be 11, but the code
computes `end_summary = 7`: `find` on the absent first entry `"ABORTING"`
returns `-1`, truthy, so the loop breaks with `-1 + len("ABORTING") = 7`.
Likewise, on an input containing no end marker at all the boundary is 7, not
end-of-text. -/
theorem end_summary_not_first_found_end_marker :
    pyFind ("xx SUMMARY: yy".toList) ("SUMMARY:".toList) = 3 ∧
    end_summary ("xx SUMMARY: yy".toList) = 7 ∧
    (∀ m ∈ STACKTRACE_END_MARKERS, pyFind ("no markers here at all!".toList) m = -1) ∧
    end_summary ("no markers here at all!".toList) = 7 := by
  refine ⟨by decide, by decide, by decide, by decide⟩

/-- C5 counter-evidence: the input `"abc"` contains no start marker, yet
extraction appends `"c"` to the summary file: `begin_summary = -1` and
`end_summary = 7` make the slice `"abc"[-1:7] = "c"`, which is non-empty and
therefore written. -/
theorem parse_fuzzer_output_writes_despite_no_marker :
    (∀ m ∈ STACKTRACE_TOOL_MARKERS, pyFind ("abc".toList) m = -1) ∧
    parse_fuzzer_output ("abc".toList) [] = some ("c".toList) := by
  refine ⟨by decide, by decide⟩

/-- C8: two successive calls on inputs whose extracted slices are non-empty
append both slices to the summary file in call order, after the pre-existing
content and without overwriting. -/
theorem parse_fuzzer_output_appends_in_call_order (s1 s2 f : List Char)
    (h1 : summary_str s1 ≠ []) (h2 : summary_str s2 ≠ []) :
    (parse_fuzzer_output s1 f).bind (fun f1 => parse_fuzzer_output s2 f1) =
      some (f ++ summary_str s1 ++ summary_str s2) := by
  rw [parse_fuzzer_output_append s1 f h1]
  show parse_fuzzer_output s2 (f ++ summary_str s1) = _
  rw [parse_fuzzer_output_append s2 (f ++ summary_str s1) h2]

/-- Witness for C8 at `s1 = "abc"`, `s2 = "abd"`, empty initial file. -/
theorem parse_fuzzer_output_appends_in_call_order_witness :
    summary_str ("abc".toList) ≠ [] ∧ summary_str ("abd".toList) ≠ [] ∧
    (parse_fuzzer_output ("abc".toList) []).bind
        (fun f1 => parse_fuzzer_output ("abd".toList) f1) =
      some ([] ++ summary_str ("abc".toList) ++ summary_str ("abd".toList)) :=
  ⟨by decide, by decide,
    parse_fuzzer_output_appends_in_call_order ("abc".toList) ("abd".toList) []
      (by decide) (by decide)⟩

/-- C1: targets are processed in discovery order; the executed targets are
exactly the clean prefix plus at most the first crashing target (so nothing
runs after a crash and the first crashing outcome is the last one processed);
the loop returns `(true, true)` exactly when some outcome crashes and
`(true, false)` when it exhausts the list without a crash; at most one crash
is ever among the executed targets. -/
theorem run_fuzzers_fail_fast (outcomes : List FuzzOutcome) :
    run_fuzzers_loop outcomes = (true, outcomes.any crash_detected) ∧
    executed_targets outcomes =
      outcomes.takeWhile (fun o => !crash_detected o) ++
        (outcomes.dropWhile (fun o => !crash_detected o)).take 1 ∧
    (executed_targets outcomes).countP crash_detected ≤ 1 := by
  induction outcomes with
  | nil => refine ⟨rfl, rfl, by decide⟩
  | cons o rest ih =>
    rcases ih with ⟨ih1, ih2, ih3⟩
    by_cases h : crash_detected o = true
    · refine ⟨?_, ?_, ?_⟩
      · simp [run_fuzzers_loop, h]
      · simp [executed_targets, List.takeWhile_cons, List.dropWhile_cons, h]
      · simp [executed_targets, h, List.countP_cons]
    · refine ⟨?_, ?_, ?_⟩
      · simp [run_fuzzers_loop, h, ih1]
      · simp [executed_targets, List.takeWhile_cons, List.dropWhile_cons, h, ih2]
      · simpa [executed_targets, h, List.countP_cons] using ih3

/-- C6: for a positive budget and a non-empty target list, every target is
allotted exactly `fuzz_seconds // len(fuzzer_paths)` seconds, the sum of the
allotments is `len * (fuzz_seconds // len)` and never exceeds the budget, and
the unused remainder is at most `len - 1` seconds. -/
theorem fuzz_seconds_division (fuzz_seconds : Nat) (fuzzer_paths : List (List Char))
    (hsec : 1 ≤ fuzz_seconds) (hpaths : fuzzer_paths ≠ []) :
    (∀ t ∈ target_allotments fuzz_seconds fuzzer_paths,
        t = fuzz_seconds / fuzzer_paths.length) ∧
    (target_allotments fuzz_seconds fuzzer_paths).sum =
      fuzzer_paths.length * (fuzz_seconds / fuzzer_paths.length) ∧
    (target_allotments fuzz_seconds fuzzer_paths).sum ≤ fuzz_seconds ∧
    fuzz_seconds - (target_allotments fuzz_seconds fuzzer_paths).sum ≤
      fuzzer_paths.length - 1 := by
  have hlen : 0 < fuzzer_paths.length := List.length_pos.mpr hpaths
  have hsum : (target_allotments fuzz_seconds fuzzer_paths).sum =
      fuzzer_paths.length * (fuzz_seconds / fuzzer_paths.length) :=
    sum_map_const_nat fuzzer_paths (fuzz_seconds_per_target fuzz_seconds fuzzer_paths)
  have hdm := Nat.div_add_mod fuzz_seconds fuzzer_paths.length
  have hlt := Nat.mod_lt fuzz_seconds hlen
  refine ⟨?_, hsum, ?_, ?_⟩
  · intro t ht
    rcases List.mem_map.mp ht with ⟨a, _, rfl⟩
    rfl
  · omega
  · omega

/-- Witness for C6 at `fuzz_seconds = 10` and three targets. -/
theorem fuzz_seconds_division_witness :
    (target_allotments 10 [("a".toList), ("b".toList), ("c".toList)]).sum ≤ 10 :=
  (fuzz_seconds_division 10 [("a".toList), ("b".toList), ("c".toList)]
    (by decide) (by decide)).2.2.1

/-- C7: with a valid project and an existing out directory, the probing window
is the day offsets 90..99 before the current date; if the download of the
first candidate date `current_date - 90` succeeds, the archive is extracted
into the per-target corpus directory and that path is returned with no further
offset attempted; if it fails, the call returns `none` on this very first miss
without advancing to the next offset. -/
theorem download_latest_corpus_first_candidate_decides (download_ok : Int → Bool)
    (current_date : Int) (out_dir target : List Char) :
    corpus_day_window = [90, 91, 92, 93, 94, 95, 96, 97, 98, 99] ∧
    (if download_ok (current_date - 90) = true then
      download_latest_corpus true true download_ok current_date out_dir target =
        (some (out_dir ++ ("/corpus/".toList) ++ target),
         [FsEvent.mkdirs (out_dir ++ ("/corpus/".toList) ++ target),
          FsEvent.attempt (current_date - 90),
          FsEvent.extractArchive (out_dir ++ ("/corpus/".toList) ++ target)
            (current_date - 90)])
    else
      download_latest_corpus true true download_ok current_date out_dir target =
        (none,
         [FsEvent.mkdirs (out_dir ++ ("/corpus/".toList) ++ target),
          FsEvent.attempt (current_date - 90)])) := by
  have hw : corpus_day_window = [90, 91, 92, 93, 94, 95, 96, 97, 98, 99] := by decide
  refine ⟨hw, ?_⟩
  by_cases h : download_ok (current_date - 90) = true
  · rw [if_pos h]
    simp [download_latest_corpus, hw, download_corpus_loop, h]
  · rw [if_neg h]
    simp [download_latest_corpus, hw, download_corpus_loop, h]

/-- C10: with a valid project and an existing out directory, the very first
filesystem action of `download_latest_corpus` is creating the per-target
corpus directory `out_dir/corpus/target`, and that creation event is in the
trace for every download oracle — in particular the directory exists after a
call that returns `none` because of an HTTP failure. -/
theorem download_latest_corpus_creates_corpus_dir (download_ok : Int → Bool)
    (current_date : Int) (out_dir target : List Char) :
    (download_latest_corpus true true download_ok current_date out_dir target).2.head? =
      some (FsEvent.mkdirs (out_dir ++ ("/corpus/".toList) ++ target)) ∧
    FsEvent.mkdirs (out_dir ++ ("/corpus/".toList) ++ target) ∈
      (download_latest_corpus true true download_ok current_date out_dir target).2 := by
  constructor
  · simp [download_latest_corpus]
  · simp [download_latest_corpus]
